import Mathlib

/-!
Verification of the ORION import reconciliation pipeline.

Shallow embedding of the reconciliation scripts:
  * `scripts/update_cluster_names.py`, `scripts/fix_cluster_labels.py`
    (fixed cluster-name table and resolver),
  * `scripts/create-unified-dataset.py` (radar deduplication and the
    cardinality-checked left join),
  * `scripts/finish_import.py`, `scripts/complete_import.py`,
    `scripts/resume_correct_import.py` (resumable batch loader),
  * `scripts/import-unified-dataset.py`, `scripts/fix_correct_import.py`
    (destructive clear operations, score conversion),
  * `scripts/complete-radar-import.py`, `scripts/import-radar-data.py`
    (radar CSV field parsing).

Tabular readers (parquet/CSV/xlsx/pickle) are external collaborators; rows
enter the model as already-loaded values.  Python floats are modelled as
`Rat`, SQL null / Python `None` / pandas NaN as `Option`.
-/

/-! ### Cluster Label Resolver
`scripts/update_cluster_names.py` lines 10-51 and the identical table in
`scripts/fix_cluster_labels.py` lines 10-20.  The Python dict has exactly
the integer keys 0..35. -/

/-- The fixed 36-entry `CLUSTER_NAMES` dict, as a partial map on `Int`
(cluster indices in the clustering artifact are integers). -/
def CLUSTER_NAMES (i : Int) : Option String :=
  if i < 0 ∨ 35 < i then none
  else match i.toNat with
  | 0 => some "AI & Automation"
  | 1 => some "Healthcare Tech"
  | 2 => some "Sustainability"
  | 3 => some "Financial Tech"
  | 4 => some "Social Dynamics"
  | 5 => some "Smart Cities"
  | 6 => some "Energy Systems"
  | 7 => some "Digital Transformation"
  | 8 => some "Education Innovation"
  | 9 => some "Manufacturing 4.0"
  | 10 => some "Space & Defense"
  | 11 => some "Food & Agriculture"
  | 12 => some "Materials Science"
  | 13 => some "Quantum Computing"
  | 14 => some "Biotechnology"
  | 15 => some "Cybersecurity"
  | 16 => some "Transportation"
  | 17 => some "Climate Action"
  | 18 => some "Governance"
  | 19 => some "Future of Work"
  | 20 => some "Consumer Tech"
  | 21 => some "Media Evolution"
  | 22 => some "Supply Chain"
  | 23 => some "Data Economy"
  | 24 => some "Health & Wellness"
  | 25 => some "Urban Development"
  | 26 => some "Resource Management"
  | 27 => some "Scientific Research"
  | 28 => some "Risk & Resilience"
  | 29 => some "Human Enhancement"
  | 30 => some "Digital Society"
  | 31 => some "Environmental Tech"
  | 32 => some "Infrastructure"
  | 33 => some "Global Systems"
  | 34 => some "Emerging Markets"
  | 35 => some "Innovation Ecosystems"
  | _ => none

/-- `get_cluster_name` of `scripts/update_cluster_names.py` line 49-51:
`CLUSTER_NAMES.get(cluster_id, f"Cluster {cluster_id}")`. -/
def get_cluster_name (cluster_id : Int) : String :=
  (CLUSTER_NAMES cluster_id).getD ("Cluster " ++ toString cluster_id)

/-! ### Score conversion
Legacy pipelines, two variants of the same clamp: a guarded one in
`scripts/fix_correct_import.py` lines 112-119 and
`scripts/resume_correct_import.py` lines 128-134, where `float(...)` sits
inside `try ... except: pass`, and an unguarded one in
`scripts/finish_import.py` lines 133-136, `scripts/complete_import.py`
lines 181-184 and `scripts/quick_complete.py` lines 119-122, where no
local `try` exists and a `float(...)` failure propagates to the
batch-level handler.  Unified pipeline: `scripts/import-unified-dataset.py`
lines 163, 168-169. -/

/-- `max(1.0, min(10.0, impact_val))`. -/
def clamp_score (v : Rat) : Rat := max 1 (min 10 v)

/-- Impact conversion of `scripts/fix_correct_import.py` lines 112-119
(identical in `scripts/resume_correct_import.py` lines 128-134).
The outer `Option` is `pd.notna(row.get('Level of Impact'))`; the inner
`Option` is whether `float(...)` succeeded (its failure is swallowed by the
bare `except: pass`, leaving the score `None`). -/
def fix_correct_import_impact (cell : Option (Option Rat)) : Option Rat :=
  match cell with
  | none => none
  | some none => none
  | some (some v) => some (clamp_score v)

/-- Impact conversion of `scripts/finish_import.py` lines 133-136
(identical in `scripts/complete_import.py` lines 181-184 and
`scripts/quick_complete.py` lines 119-122): the same presence check and
clamp, but `float(...)` is not wrapped in a local `try`, so an
unparseable present value raises out of the record loop instead of
yielding a null score (the exception is only caught per batch). -/
def finish_import_impact (cell : Option (Option Rat)) : Except String (Option Rat) :=
  match cell with
  | none => .ok none
  | some none => .error "ValueError: could not convert string to float"
  | some (some v) => .ok (some (clamp_score v))

/-- Impact conversion of `scripts/import-unified-dataset.py` line 163:
`float(row['Level of Impact']) if ... pd.notna(...) else 5.0`.  No clamping
is applied; an absent value becomes the fixed default `5.0`.  Lines 168-169
apply the same shape to `Feasibility` and `Urgency`. -/
def unified_impact (cell : Option Rat) : Rat :=
  match cell with
  | some v => v
  | none => 5

/-! ### Radar Deduplicator
`scripts/create-unified-dataset.py` lines 62-89 (`load_radar_csv`).  Rows
enter with the already-computed `title_normalized` matching key and the
`to_numeric`-coerced columns. -/

/-- Strict lexicographic order on character lists (byte-wise string
comparison, as pandas and the SQL id ordering use on these ASCII keys). -/
def chars_lt : List Char → List Char → Bool
  | [], [] => false
  | [], _ :: _ => true
  | _ :: _, [] => false
  | a :: as, b :: bs => if a < b then true else if b < a then false else chars_lt as bs

/-- Strict lexicographic order on strings. -/
def str_lt (a b : String) : Bool := chars_lt a.toList b.toList

/-- One radar CSV row after cleaning: the normalized title key plus the
four visualization columns (`None`/NaN as `none`). -/
structure RadarRow where
  title_normalized : String
  dimension : Option String
  magnitude : Option Rat
  distance : Option Rat
  color_hex : Option String
deriving DecidableEq

/-- The multi-key ordering of
`df.sort_values(['title_normalized', 'has_dimension', 'has_magnitude',
'magnitude'], ascending=[True, False, False, False])`: title ascending,
then presence of `dimension`, presence of `magnitude`, and numeric
`magnitude`, each descending.  (The `na_position` default never matters:
`magnitude` is compared only when both rows have `has_magnitude` equal, so
either both are numbers or both are NaN.)  pandas' quicksort is not stable;
the model resolves key ties by input order, a deterministic refinement. -/
def radar_sort_le (a b : RadarRow) : Bool :=
  if a.title_normalized = b.title_normalized then
    if a.dimension.isSome = b.dimension.isSome then
      if a.magnitude.isSome = b.magnitude.isSome then
        match a.magnitude, b.magnitude with
        | some x, some y => decide (y ≤ x)
        | _, _ => true
      else a.magnitude.isSome
    else a.dimension.isSome
  else str_lt a.title_normalized b.title_normalized

/-- pandas `GroupBy.first` semantics for one column: the first non-null
entry of the group, `None` if all entries are null. -/
def first_non_null {α : Type} (l : List (Option α)) : Option α :=
  (l.filterMap id).head?

/-- The output row `groupby('title_normalized').first()` produces for the
group `g` of key `k`: per column, the first non-null value in `g`. -/
def group_first (k : String) (g : List RadarRow) : RadarRow :=
  { title_normalized := k
    dimension := first_non_null (g.map (·.dimension))
    magnitude := first_non_null (g.map (·.magnitude))
    distance := first_non_null (g.map (·.distance))
    color_hex := first_non_null (g.map (·.color_hex)) }

/-- Lines 76-81: the priority sort followed by
`groupby('title_normalized').first().reset_index()`.  `groupby` emits one
row per distinct key, keys in ascending order (which, the frame being
sorted by key, is their order of appearance); each group consists of the
sorted frame's rows carrying that key, in frame order. -/
def dedup_radar_rows (rows : List RadarRow) : List RadarRow :=
  let sorted := rows.insertionSort (fun a b => radar_sort_le a b = true)
  ((sorted.map (·.title_normalized)).dedup).map
    (fun k => group_first k (sorted.filter (fun r => r.title_normalized = k)))

/-- Lines 65-89: deduplication runs only when some normalized title occurs
more than once (`duplicate_count > 0`); otherwise the frame is returned
unchanged. -/
def load_radar_dedup (rows : List RadarRow) : List RadarRow :=
  if (rows.map (·.title_normalized)).Nodup then rows else dedup_radar_rows rows

/-! ### Cross-Source Matcher
`scripts/create-unified-dataset.py` lines 91-143 (`merge_datasets`). -/

/-- One base (parquet) row: the eight exported columns plus the
`title_normalized` matching key added by `load_parquet_data`. -/
structure BaseRow where
  ID : Nat
  Title : String
  Description : String
  driving_force : String
  Tags : String
  Source : String
  level_of_impact : Option Rat
  time_to_market : Option String
  title_normalized : String
deriving DecidableEq

/-- One row of the unified output frame: the eight base columns plus the
four radar enrichment columns.  `title_normalized` is dropped
(line 116 of the script) and hence absent here. -/
structure MergedRow where
  ID : Nat
  Title : String
  Description : String
  driving_force : String
  Tags : String
  Source : String
  level_of_impact : Option Rat
  time_to_market : Option String
  magnitude : Option Rat
  distance : Option Rat
  color_hex : Option String
  dimension : Option String
deriving DecidableEq

/-- The joined rows one base row produces in the left join: a single row
with no radar annotation when its key matches no radar row, and one row
per matching radar row otherwise (radar rows in radar order). -/
def merge_group (b : BaseRow) (radar : List RadarRow) :
    List (BaseRow × Option RadarRow) :=
  match radar.filter (fun r => r.title_normalized = b.title_normalized) with
  | [] => [(b, none)]
  | ms => ms.map (fun r => (b, some r))

/-- The raw left join `parquet_df.merge(radar_subset,
on='title_normalized', how='left')`: every base row in base order, each
contributing its group of joined rows. -/
def merge_join (base : List BaseRow) (radar : List RadarRow) :
    List (BaseRow × Option RadarRow) :=
  base.flatMap (fun b => merge_group b radar)

/-- Flattening one joined pair into an output row (the radar columns are
NaN for an unmatched base row), with `title_normalized` dropped. -/
def to_merged_row (p : BaseRow × Option RadarRow) : MergedRow :=
  { ID := p.1.ID
    Title := p.1.Title
    Description := p.1.Description
    driving_force := p.1.driving_force
    Tags := p.1.Tags
    Source := p.1.Source
    level_of_impact := p.1.level_of_impact
    time_to_market := p.1.time_to_market
    magnitude := p.2.bind (·.magnitude)
    distance := p.2.bind (·.distance)
    color_hex := p.2.bind (·.color_hex)
    dimension := p.2.bind (·.dimension) }

/-- `merge_datasets`: the left join on `title_normalized`, the hard
cardinality gate of lines 110-113 (`raise ValueError` when the row count
changed), and the drop of the matching key.  The error branch returns no
rows at all — the exception propagates before any export. -/
def merge_datasets (base : List BaseRow) (radar : List RadarRow) :
    Except String (List MergedRow) :=
  if (merge_join base radar).length = base.length then
    .ok ((merge_join base radar).map to_merged_row)
  else .error "MERGE ERROR: row count changed by duplicate keys in radar data"

/-- The tuple of the eight base columns of an output row. -/
def merged_base_fields (m : MergedRow) :
    Nat × String × String × String × String × String × Option Rat × Option String :=
  (m.ID, m.Title, m.Description, m.driving_force, m.Tags, m.Source,
    m.level_of_impact, m.time_to_market)

/-- The tuple of the eight base columns of a base input row. -/
def base_fields (b : BaseRow) :
    Nat × String × String × String × String × String × Option Rat × Option String :=
  (b.ID, b.Title, b.Description, b.driving_force, b.Tags, b.Source,
    b.level_of_impact, b.time_to_market)

/-! ### Resumable Batch Loader
Insert semantics and resume logic of `scripts/resume_correct_import.py`
(set-difference resume, lines 45-67 and 86-164) and the
`ON CONFLICT (id) DO NOTHING` insert shared with `scripts/finish_import.py`
lines 146-158. -/

/-- One source dataset row: the numeric `ID` column (from which the stable
id is derived) plus the remaining columns, opaque for loading purposes. -/
structure SourceRec where
  idNum : Nat
  payload : String
deriving DecidableEq

/-- `force_id = f"force-{row['ID']}"`. -/
def force_id (n : Nat) : String := "force-" ++ toString n

/-- One committed `driving_forces` row, reduced to its unique id and an
opaque payload. -/
structure StoreRow where
  id : String
  payload : String
deriving DecidableEq

/-- The record a source row is loaded as. -/
def mk_store_row (r : SourceRec) : StoreRow :=
  { id := force_id r.idNum, payload := r.payload }

/-- The ids currently in the store. -/
def store_ids (st : List StoreRow) : List String := st.map (·.id)

/-- `INSERT ... ON CONFLICT (id) DO NOTHING`: appending the row unless its
id already exists, in which case the store — including the existing row —
is untouched. -/
def insert_row (st : List StoreRow) (r : StoreRow) : List StoreRow :=
  if st.any (fun x => x.id = r.id) then st else st ++ [r]

/-- `cur.executemany(...)`: the rows of a batch inserted in order. -/
def insert_batch (st : List StoreRow) (b : List StoreRow) : List StoreRow :=
  b.foldl insert_row st

/-- `resume_correct_import.py` lines 45-61: the set of already-imported
force ids is read back and every source row whose derived id is already
present is skipped; the remainder is imported in order. -/
def to_import (src : List SourceRec) (st : List StoreRow) : List StoreRow :=
  (src.filter (fun r => !((store_ids st).contains (force_id r.idNum)))).map mk_store_row

/-- `BATCH_SIZE = 500`. -/
def BATCH_SIZE : Nat := 500

/-- One loader invocation that commits its first `k` batches and is then
interrupted (a completed invocation is one with `500 * k` at least the
remaining count).  Batches are contiguous 500-row slices of `to_import`
processed and committed strictly in order, so the rows persisted by the
first `k` batches are exactly the first `500 * k` rows. -/
def run_invocation (src : List SourceRec) (st : List StoreRow) (k : Nat) :
    List StoreRow :=
  insert_batch st ((to_import src st).take (BATCH_SIZE * k))

/-- A sequence of loader invocations against an initially empty store,
the `i`-th interrupted after `ks[i]` batches. -/
def run_invocations (src : List SourceRec) (ks : List Nat) : List StoreRow :=
  ks.foldl (run_invocation src) []

/-! ### Resume-point determination
`scripts/finish_import.py` lines 45-54 (numeric-suffix maximum via
`ORDER BY CAST(SUBSTRING(id FROM 7) AS INTEGER) DESC`) versus
`scripts/complete_import.py` lines 59-89 (`ORDER BY id DESC`, i.e. the
lexicographically greatest id string, whose suffix is then parsed). -/

/-- Decimal-digit parse of a character list; `none` when empty or any
character is not a digit — modelling `int(...)` / SQL `CAST(... AS
INTEGER)` raising on malformed input. -/
def parse_nat_digits (cs : List Char) : Option Nat :=
  if cs = [] then none
  else if cs.all (fun c => c.isDigit) then
    some (cs.foldl (fun a c => 10 * a + (c.toNat - 48)) 0)
  else none

/-- `id LIKE 'force-%'` plus `CAST(SUBSTRING(id FROM 7) AS INTEGER)`:
the numeric value of the id's suffix after the `force-` marker. -/
def force_suffix_num (s : String) : Option Nat :=
  match s.toList with
  | 'f' :: 'o' :: 'r' :: 'c' :: 'e' :: '-' :: rest => parse_nat_digits rest
  | _ => none

/-- `finish_import.py` lines 46-54: the largest numeric suffix among the
`force-` ids, or 0 on an empty result (`start_index = 0`). -/
def finish_import_start_index (ids : List String) : Nat :=
  match (ids.filterMap force_suffix_num).foldl
      (fun acc n => match acc with
        | none => some n
        | some m => if m < n then some n else some m) none with
  | some n => n
  | none => 0

/-- `SELECT id FROM driving_forces ORDER BY id DESC LIMIT 1`: the
lexicographically greatest id string. -/
def lex_max_id (ids : List String) : Option String :=
  ids.foldl (fun acc s => match acc with
    | none => some s
    | some m => if str_lt m s then some s else some m) none

/-- `complete_import.py` `get_import_status` lines 59-62 plus
`resume_import` lines 81-89: take the lexicographically greatest id; if it
starts with `force-`, parse `id.split('-')[1]` (the characters up to the
next dash) and resume at that value (`int(...) - 1` converted to 0-based,
then `+ 1`); on a parse failure or a non-`force-` id fall back to the
current row count; on an empty store fall back to the current row count
(which is then 0). -/
def complete_import_start_index (ids : List String) (current_count : Nat) : Nat :=
  match lex_max_id ids with
  | none => current_count
  | some last =>
    match last.toList with
    | 'f' :: 'o' :: 'r' :: 'c' :: 'e' :: '-' :: rest =>
      match parse_nat_digits (rest.takeWhile (fun c => c ≠ '-')) with
      | some n => n
      | none => current_count
    | _ => current_count

/-! ### Cluster index resolution in the loaders
`scripts/finish_import.py` lines 77-83 and 110-114 (stable mapping: the
`i`-th cluster row ordered by id) versus `scripts/complete_import.py`
lines 94-119 (a mapping built by enumerating a Python set of the
*remaining* cluster labels against the cluster rows). -/

/-- Iteration order of a CPython set of small nonnegative ints: for values
below 8 each value hashes to its own slot of the initial 8-slot table, so
iteration is ascending.  (Used only at the small concrete label sets
below.) -/
def py_small_int_set (l : List Nat) : List Nat :=
  l.dedup.insertionSort (· ≤ ·)

/-- `complete_import.py` lines 115-119: `for i, cluster_id in
enumerate(set(remaining_features['cluster_labels'])): if i <
len(cluster_rows): cluster_mapping[cluster_id] = cluster_rows[i][0]` —
an association list from label to the `i`-th cluster row (`zip`
truncates exactly where `i < len(cluster_rows)` stops assigning). -/
def complete_cluster_mapping (remaining_labels : List Nat)
    (cluster_rows : List String) : List (Nat × String) :=
  (py_small_int_set remaining_labels).zip cluster_rows

/-- `complete_import.py` lines 147-154: the cluster id attached to the
record at offset `df_idx` of the resumed slice
(`features['cluster_labels'][start_index:]`), via
`cluster_mapping.get(legacy_cluster)`. -/
def complete_cluster_assign (labels : List Nat) (start_index df_idx : Nat)
    (cluster_rows : List String) : Option String :=
  match (labels.drop start_index)[df_idx]? with
  | none => none
  | some lbl => (complete_cluster_mapping (labels.drop start_index) cluster_rows).lookup lbl

/-- `finish_import.py` lines 77-83 and 110-114: `cluster_mapping[i]` is the
`i`-th cluster row ordered by id, looked up with the label found at the
record's global index in the unsliced `cluster_labels` array. -/
def finish_cluster_assign (labels : List Nat) (global_idx : Nat)
    (cluster_rows_sorted : List String) : Option String :=
  match labels[global_idx]? with
  | none => none
  | some lbl => cluster_rows_sorted[lbl]?

/-! ### Destructive-operation gates
`scripts/import-unified-dataset.py` lines 24-68 (`clear_existing_data`)
versus `scripts/fix_correct_import.py` lines 20-26. -/

/-- A `projects` row: id, name, default flag. -/
structure Project where
  id : String
  name : String
  is_default : Bool
deriving DecidableEq

/-- The relational store as touched by the clear operations, each table as
its list of rows (row contents opaque except for projects). -/
structure OrionStore where
  projects : List Project
  reports : List String
  workspaces : List String
  clustering_reports : List String
  saved_searches : List String
  driving_forces : List String
  clusters : List String
deriving DecidableEq

/-- Python `str.lower()` (the names involved are ASCII). -/
def lower_str (s : String) : String :=
  String.mk (s.toList.map Char.toLower)

/-- Python substring containment `sub in s`. -/
def contains_sub (s sub : String) : Bool :=
  decide (sub.toList <:+: s.toList)

/-- Line 40: `'prod' in db_name.lower() or 'production' in db_name.lower()`. -/
def is_prod_name (db_name : String) : Bool :=
  contains_sub (lower_str db_name) "prod" || contains_sub (lower_str db_name) "production"

/-- `clear_existing_data` of `scripts/import-unified-dataset.py` lines
24-68.  A dry run mutates nothing and returns the sentinel project id.
Without `ORION_IMPORT_ALLOW` it raises before touching the store; against
a database whose name marks production it raises before any `DELETE`
executes (the check precedes the deletes, and nothing was committed).  The
error branches therefore return no store at all.  Otherwise the dependent
tables are emptied, non-`%Processing%` projects deleted, and a fresh
default project (fresh uuid `new_project_id`) inserted. -/
def clear_existing_data (dry_run allow_flag : Bool) (db_name new_project_id : String)
    (st : OrionStore) : Except String (OrionStore × String) :=
  if dry_run then .ok (st, "dry-run-project-id")
  else if !allow_flag then
    .error "SAFETY: Set ORION_IMPORT_ALLOW=1 environment variable to enable destructive operations"
  else if is_prod_name db_name then
    .error ("SAFETY: Refusing to clear production database: " ++ db_name)
  else
    .ok ({ projects :=
             st.projects.filter (fun p => contains_sub p.name "Processing") ++
               [{ id := new_project_id, name := "Unified Dataset", is_default := true }]
           reports := []
           workspaces := []
           clustering_reports := []
           saved_searches := []
           driving_forces := []
           clusters := [] }, new_project_id)

/-- The clear step of `scripts/fix_correct_import.py` lines 20-26:
`DELETE FROM driving_forces` followed by an immediate commit — no
confirmation flag is consulted, no database-name inspection happens, and
the function never fails. -/
def fix_correct_import_clear (st : OrionStore) : OrionStore :=
  { st with driving_forces := [] }

/-! ### Radar CSV numeric parsing
`scripts/complete-radar-import.py` lines 36-68 (`load_csv_data`) and
`scripts/import-radar-data.py` lines 35-56 (`read_csv_radar_data`).  A raw
cell is blank, a numeric string, or non-blank text that `float()`
rejects. -/

/-- A raw CSV cell destined for `float()`. -/
inductive CsvCell where
  | blank
  | num (v : Rat)
  | garbage
deriving DecidableEq

/-- The value a cell denotes when no exception interferes: blank cells are
skipped (`if row.get(...).strip() else None`), numeric cells parse. -/
def cell_value : CsvCell → Option Rat
  | .blank => none
  | .num v => some v
  | .garbage => none

/-- Lines 50-55 of `complete-radar-import.py`: one `try` block parses
`magnitude` and then `distance`; `except ValueError` assigns `None` to
*both*.  So a garbage magnitude aborts before distance is read, and a
garbage distance discards an already-parsed magnitude. -/
def parse_radar_numbers (mag dist : CsvCell) : Option Rat × Option Rat :=
  match mag, dist with
  | .garbage, _ => (none, none)
  | _, .garbage => (none, none)
  | m, d => (cell_value m, cell_value d)

/-- One raw radar CSV row (`dimension` and `color_hex` already stripped by
the reader model; the numeric columns as raw cells). -/
structure RawRadarRow where
  driving_force : String
  dimension : String
  mag : CsvCell
  dist : CsvCell
  color_hex : String
deriving DecidableEq

/-- One parsed radar record of `complete-radar-import.py`. -/
structure RadarRecord where
  title : String
  dimension : Option String
  magnitude : Option Rat
  distance : Option Rat
  color_hex : Option String
deriving DecidableEq

/-- `row.get(...).strip() or None`. -/
def str_or_none (s : String) : Option String :=
  if s = "" then none else some s

/-- Lines 44-66 of `complete-radar-import.py`: a row with a blank
`driving_force` is skipped (`continue`), every other row yields exactly one
record — numeric parse failures are recovered inside the row. -/
def load_radar_csv_row (r : RawRadarRow) : Option RadarRecord :=
  if r.driving_force = "" then none
  else
    let nums := parse_radar_numbers r.mag r.dist
    some { title := r.driving_force
           dimension := str_or_none r.dimension
           magnitude := nums.1
           distance := nums.2
           color_hex := str_or_none r.color_hex }

/-- `load_csv_data`: the reader loop over all rows. -/
def load_csv_data (rows : List RawRadarRow) : List RadarRecord :=
  rows.filterMap load_radar_csv_row

/-- `float()` in `import-radar-data.py` lines 50-51, where no `try`
guards the parse: garbage raises. -/
def float_cell : CsvCell → Except String (Option Rat)
  | .blank => .ok none
  | .num v => .ok (some v)
  | .garbage => .error "ValueError: could not convert string to float"

/-- `read_csv_radar_data` of `scripts/import-radar-data.py` lines 35-56:
rows with a blank `driving_force` are skipped; the numeric fields are
parsed unguarded, so a single malformed cell propagates and aborts the
whole read. -/
def read_csv_radar_data : List RawRadarRow → Except String (List RadarRecord)
  | [] => .ok []
  | r :: rest =>
    if r.driving_force = "" then read_csv_radar_data rest
    else
      match float_cell r.mag with
      | .error e => .error e
      | .ok m =>
        match float_cell r.dist with
        | .error e => .error e
        | .ok d =>
          match read_csv_radar_data rest with
          | .error e => .error e
          | .ok tl =>
            .ok ({ title := r.driving_force
                   dimension := str_or_none r.dimension
                   magnitude := m
                   distance := d
                   color_hex := str_or_none r.color_hex } :: tl)

/-- C6: cluster label resolution is a pure function of the numeric index:
every index 0..35 hits the fixed table (13 yields "Quantum Computing"), and
any index with no table entry falls back to `"Cluster {n}"` (99 yields
"Cluster 99"). -/
theorem cluster_label_resolution :
    get_cluster_name 13 = "Quantum Computing" ∧
    get_cluster_name 99 = "Cluster 99" ∧
    (∀ i : Int, 0 ≤ i → i ≤ 35 →
      ∃ s, CLUSTER_NAMES i = some s ∧ get_cluster_name i = s) ∧
    (∀ i : Int, CLUSTER_NAMES i = none →
      get_cluster_name i = "Cluster " ++ toString i) := by
  refine ⟨rfl, rfl, ?_, ?_⟩
  · intro i h0 h35
    interval_cases i <;> exact ⟨_, rfl, rfl⟩
  · intro i h
    simp [get_cluster_name, h]

/-- Witness for `cluster_label_resolution` at index 13. -/
theorem cluster_label_resolution_witness :
    ∃ s, CLUSTER_NAMES 13 = some s ∧ get_cluster_name 13 = s :=
  cluster_label_resolution.2.2.1 13 (by decide) (by decide)

/-- C3: the resume point claim fails on `complete_import.py`: against a
store holding ids `force-9` and `force-10` its `ORDER BY id DESC` picks the
lexicographically greatest id `force-9` and resumes at 9, re-processing the
source row whose index 10 is the true maximum numeric suffix; the
CAST-based query of `finish_import.py` yields 10.  On an empty store both
start from the first row (index 0). -/
theorem resume_point_lex_vs_numeric :
    complete_import_start_index ["force-9", "force-10"] 2 = 9 ∧
    finish_import_start_index ["force-9", "force-10"] = 10 ∧
    complete_import_start_index ["force-9", "force-10"] 2 ≠
      finish_import_start_index ["force-9", "force-10"] ∧
    complete_import_start_index [] 0 = 0 ∧
    finish_import_start_index [] = 0 := by
  decide

/-- C4: with cluster labels `[0, 1, 2]` and cluster rows
`["c0", "c1", "c2"]`, both a fresh run (`start_index = 0`, offset 1) and a
resumed run (`start_index = 1`, offset 0) of `complete_import.py` process
the record at original position 1 and read the positionally aligned label
1, but the fresh run resolves that cluster index to `"c1"` while the
resumed run resolves it to `"c0"`: the mapping is built from the enumerated
set of the *remaining* labels, so the same numeric cluster index resolves
to different store cluster ids.  `finish_import.py`'s index-stable mapping
yields `"c1"` in both cases. -/
theorem cluster_resolution_resume_divergence :
    complete_cluster_assign [0, 1, 2] 0 1 ["c0", "c1", "c2"] = some "c1" ∧
    complete_cluster_assign [0, 1, 2] 1 0 ["c0", "c1", "c2"] = some "c0" ∧
    (([0, 1, 2] : List Nat).drop 0)[1]? = some 1 ∧
    (([0, 1, 2] : List Nat).drop 1)[0]? = some 1 ∧
    finish_cluster_assign [0, 1, 2] 1 ["c0", "c1", "c2"] = some "c1" ∧
    complete_cluster_assign [0, 1, 2] 0 1 ["c0", "c1", "c2"] ≠
      complete_cluster_assign [0, 1, 2] 1 0 ["c0", "c1", "c2"] := by
  decide

/-- C7 counterexample: `fix_correct_import.py` is a destructive
clear-and-reload operation, yet with no confirmation flag in sight it
mutates the store (emptying `driving_forces`) instead of refusing — the
claim's universal safety gate does not hold for it. -/
theorem safety_gate_counterexample :
    fix_correct_import_clear
        { projects := [{ id := "p1", name := "Main", is_default := true }]
          reports := [], workspaces := [], clustering_reports := []
          saved_searches := [], driving_forces := ["force-1"], clusters := [] } ≠
      { projects := [{ id := "p1", name := "Main", is_default := true }]
        reports := [], workspaces := [], clustering_reports := []
        saved_searches := [], driving_forces := ["force-1"], clusters := [] } ∧
    (fix_correct_import_clear
        { projects := [{ id := "p1", name := "Main", is_default := true }]
          reports := [], workspaces := [], clustering_reports := []
          saved_searches := [], driving_forces := ["force-1"], clusters := [] }).driving_forces
      = [] := by
  decide

/-- C7 amended: the unified-dataset importer's clear operation refuses —
raising before any mutation, so the store is untouched — whenever the
confirmation flag is unset or the database name identifies production;
the clear step of `fix_correct_import.py` instead deletes the driving
forces unconditionally, with no gate at all. -/
theorem safety_gate_amended :
    (∀ (st : OrionStore) (db pid : String),
      clear_existing_data false false db pid st =
        .error "SAFETY: Set ORION_IMPORT_ALLOW=1 environment variable to enable destructive operations") ∧
    (∀ (st : OrionStore) (db pid : String) (allow : Bool),
      is_prod_name db = true →
        ∀ res, clear_existing_data false allow db pid st ≠ .ok res) ∧
    (∀ st : OrionStore, (fix_correct_import_clear st).driving_forces = []) := by
  refine ⟨fun st db pid => rfl, ?_, fun st => rfl⟩
  intro st db pid allow h res
  cases allow <;> simp [clear_existing_data, h]

/-- Witness for `safety_gate_amended` on a production-named database. -/
theorem safety_gate_amended_witness :
    clear_existing_data false true "orion_production" "p"
        { projects := [], reports := [], workspaces := [], clustering_reports := []
          saved_searches := [], driving_forces := ["force-1"], clusters := [] } ≠
      .ok ({ projects := [], reports := [], workspaces := [], clustering_reports := []
             saved_searches := [], driving_forces := [], clusters := [] }, "p") :=
  safety_gate_amended.2.1 _ "orion_production" "p" true (by decide) _

/-- C8 counterexample: the unified-dataset import pipeline stores a present
impact value of 15.0 as 15.0, not clamped to 10.0 (and -2.0 as -2.0, not
1.0) — the clamping claim does not hold for every import pipeline. -/
theorem score_clamping_counterexample :
    unified_impact (some 15) = 15 ∧
    unified_impact (some 15) ≠ 10 ∧
    unified_impact (some (-2)) = -2 := by
  refine ⟨rfl, ?_, rfl⟩
  norm_num [unified_impact]

/-- C8 amended: in every legacy import pipeline a present, parseable
impact value is stored clamped to [1, 10] — 15.0 becomes 10.0 and -2.0
becomes 1.0, values already in range pass through — and an absent value
yields null.  An unparseable present value yields null only in the guarded
variant (`fix_correct_import.py`, `resume_correct_import.py`); in the
unguarded variant (`finish_import.py`, `complete_import.py`,
`quick_complete.py`) it raises, failing the batch, so no score is stored
at all.  The unified-dataset pipeline stores present values unclamped and
defaults absent ones to 5.0. -/
theorem score_clamping_amended :
    (∀ v : Rat, 1 ≤ clamp_score v ∧ clamp_score v ≤ 10) ∧
    (∀ v : Rat, 1 ≤ v → v ≤ 10 → clamp_score v = v) ∧
    fix_correct_import_impact (some (some 15)) = some 10 ∧
    fix_correct_import_impact (some (some (-2))) = some 1 ∧
    fix_correct_import_impact (some none) = none ∧
    fix_correct_import_impact none = none ∧
    finish_import_impact (some (some 15)) = .ok (some 10) ∧
    finish_import_impact (some (some (-2))) = .ok (some 1) ∧
    finish_import_impact none = .ok none ∧
    (∀ res : Option Rat, finish_import_impact (some none) ≠ .ok res) ∧
    unified_impact none = 5 ∧
    unified_impact (some 15) = 15 := by
  refine ⟨fun v => ⟨le_max_left _ _, max_le (by norm_num) (min_le_left _ _)⟩,
    fun v h1 h10 => ?_, ?_, ?_, rfl, rfl, ?_, ?_, rfl,
    fun res h => Except.noConfusion h, rfl, rfl⟩
  · rw [clamp_score, min_eq_right h10, max_eq_right h1]
  · simp [fix_correct_import_impact, clamp_score]
    norm_num
  · simp [fix_correct_import_impact, clamp_score]
    norm_num
  · simp [finish_import_impact, clamp_score]
    norm_num
  · simp [finish_import_impact, clamp_score]
    norm_num

/-- Witness for `score_clamping_amended`: the in-range value 7 passes
through the clamp, and the unguarded pipeline refuses to store a score
for an unparseable value. -/
theorem score_clamping_amended_witness :
    (1 ≤ clamp_score 7 ∧ clamp_score 7 ≤ 10) ∧ clamp_score 7 = 7 ∧
    finish_import_impact (some none) ≠ .ok none :=
  ⟨score_clamping_amended.1 7,
    score_clamping_amended.2.1 7 (by norm_num) (by norm_num),
    score_clamping_amended.2.2.2.2.2.2.2.2.2.1 none⟩

/-- C9 counterexample: in `complete-radar-import.py` a magnitude of `5`
together with an unparseable distance yields `(None, None)` — the
successfully parsed magnitude is discarded rather than the failure being
confined to the distance field alone. -/
theorem field_parse_counterexample :
    parse_radar_numbers (.num 5) .garbage = (none, none) ∧
    (parse_radar_numbers (.num 5) .garbage).1 ≠ some 5 := by
  decide

/-- C9 amended: a numeric parse failure is recovered within the row — the
record still flows through the pipeline and the non-numeric fields are
unaffected — but `magnitude` and `distance` are parsed inside a single
guarded block, so a failure in either yields null for *both* numeric
fields; in `import-radar-data.py` the parse is unguarded and a single
malformed numeric cell aborts the whole read. -/
theorem field_parse_amended :
    (∀ r : RawRadarRow, r.driving_force ≠ "" →
      load_radar_csv_row r = some
        { title := r.driving_force
          dimension := str_or_none r.dimension
          magnitude := (parse_radar_numbers r.mag r.dist).1
          distance := (parse_radar_numbers r.mag r.dist).2
          color_hex := str_or_none r.color_hex }) ∧
    (∀ v w : Rat, parse_radar_numbers (.num v) (.num w) = (some v, some w)) ∧
    (∀ mag dist : CsvCell, mag = .garbage ∨ dist = .garbage →
      parse_radar_numbers mag dist = (none, none)) ∧
    (∀ (r : RawRadarRow) (rest : List RawRadarRow),
      r.driving_force ≠ "" → r.mag = .garbage →
        read_csv_radar_data (r :: rest) =
          .error "ValueError: could not convert string to float") := by
  refine ⟨?_, fun v w => rfl, ?_, ?_⟩
  · intro r h
    simp [load_radar_csv_row, h]
  · intro mag dist h
    cases mag <;> cases dist <;> simp_all [parse_radar_numbers]
  · intro r rest h hm
    simp [read_csv_radar_data, h, hm, float_cell]

/-- Witness for `field_parse_amended`: a well-formed row loads as one
record, and a garbage magnitude aborts `import-radar-data.py`'s read. -/
theorem field_parse_amended_witness :
    load_radar_csv_row
        { driving_force := "t", dimension := "d", mag := .num 5, dist := .blank, color_hex := "" }
      = some
        { title := "t", dimension := some "d", magnitude := some 5, distance := none, color_hex := none } ∧
    read_csv_radar_data
        [{ driving_force := "t", dimension := "d", mag := .garbage, dist := .blank, color_hex := "" }]
      = .error "ValueError: could not convert string to float" :=
  ⟨field_parse_amended.1 _ (by decide),
    field_parse_amended.2.2.2 _ [] (by decide) rfl⟩

/-- The deduplicated frame's key column is the deduplicated key column of
the sorted frame. -/
theorem dedup_radar_rows_keys (rows : List RadarRow) :
    (dedup_radar_rows rows).map (·.title_normalized) =
      ((rows.insertionSort (fun a b => radar_sort_le a b = true)).map
        (·.title_normalized)).dedup := by
  unfold dedup_radar_rows
  rw [List.map_map]
  simp only [Function.comp_def, group_first]
  exact List.map_id _

/-- C5 counterexample: for the key-sharing rows
`(dimension := "tech", magnitude := None)` and
`(dimension := None, magnitude := 5)` the deduplicator emits the blended
row `(dimension := "tech", magnitude := 5)`, which equals *neither* input
row: `groupby(...).first()` takes each column's first non-null value, so
no single row "survives" the priority ordering. -/
theorem dedup_survivor_counterexample :
    load_radar_dedup
        [{ title_normalized := "x", dimension := some "tech", magnitude := none, distance := none, color_hex := none },
         { title_normalized := "x", dimension := none, magnitude := some 5, distance := none, color_hex := none }] =
      [{ title_normalized := "x", dimension := some "tech", magnitude := some 5, distance := none, color_hex := none }] ∧
    ({ title_normalized := "x", dimension := some "tech", magnitude := some 5, distance := none, color_hex := none } : RadarRow) ∉
      [({ title_normalized := "x", dimension := some "tech", magnitude := none, distance := none, color_hex := none } : RadarRow),
       { title_normalized := "x", dimension := none, magnitude := some 5, distance := none, color_hex := none }] := by
  decide

/-- C5 amended: the deduplicator outputs at most one row per normalized
title key and introduces no new keys; the output row's fields are combined
column-wise — each column takes the first non-null value among the key's
rows in descending priority order (non-null `dimension`, then non-null
`magnitude`, then larger `magnitude`) — so in the spec's example the pair
`(dimension := None, magnitude := 3)` / `(dimension := "tech",
magnitude := 1)` yields `(dimension := "tech", magnitude := 1)` regardless
of input order. -/
theorem dedup_radar_amended :
    (∀ rows : List RadarRow,
      ((load_radar_dedup rows).map (·.title_normalized)).Nodup ∧
      ∀ k, k ∈ (load_radar_dedup rows).map (·.title_normalized) →
        k ∈ rows.map (·.title_normalized)) ∧
    load_radar_dedup
        [{ title_normalized := "X", dimension := none, magnitude := some 3, distance := none, color_hex := none },
         { title_normalized := "X", dimension := some "tech", magnitude := some 1, distance := none, color_hex := none }] =
      [{ title_normalized := "X", dimension := some "tech", magnitude := some 1, distance := none, color_hex := none }] ∧
    load_radar_dedup
        [{ title_normalized := "X", dimension := some "tech", magnitude := some 1, distance := none, color_hex := none },
         { title_normalized := "X", dimension := none, magnitude := some 3, distance := none, color_hex := none }] =
      [{ title_normalized := "X", dimension := some "tech", magnitude := some 1, distance := none, color_hex := none }] := by
  refine ⟨?_, by decide, by decide⟩
  intro rows
  by_cases h : (rows.map (·.title_normalized)).Nodup
  · unfold load_radar_dedup
    rw [if_pos h]
    exact ⟨h, fun k hk => hk⟩
  · unfold load_radar_dedup
    rw [if_neg h, dedup_radar_rows_keys]
    refine ⟨List.nodup_dedup _, fun k hk => ?_⟩
    have hk2 := List.dedup_subset _ hk
    exact ((List.perm_insertionSort
      (fun a b => radar_sort_le a b = true) rows).map (·.title_normalized)).mem_iff.mp hk2

/-- Witness for `dedup_radar_amended` on a duplicate-key input. -/
theorem dedup_radar_amended_witness :
    ((load_radar_dedup
        [{ title_normalized := "x", dimension := some "tech", magnitude := none, distance := none, color_hex := none },
         { title_normalized := "x", dimension := none, magnitude := some 5, distance := none, color_hex := none }]).map
      (·.title_normalized)).Nodup ∧
    "x" ∈ ([{ title_normalized := "x", dimension := some "tech", magnitude := none, distance := none, color_hex := none },
            { title_normalized := "x", dimension := none, magnitude := some 5, distance := none, color_hex := none }] : List RadarRow).map
      (·.title_normalized) :=
  ⟨(dedup_radar_amended.1 _).1,
    (dedup_radar_amended.1 _).2 "x" (by decide)⟩

/-- With no duplicate keys among the radar rows, at most one radar row
matches any key. -/
theorem radar_filter_len_le_one (radar : List RadarRow)
    (h : (radar.map (·.title_normalized)).Nodup) (k : String) :
    (radar.filter (fun r => r.title_normalized = k)).length ≤ 1 := by
  induction radar with
  | nil => simp
  | cons r rest ih =>
    simp only [List.map_cons, List.nodup_cons] at h
    by_cases hk : r.title_normalized = k
    · have hrest : rest.filter (fun r => r.title_normalized = k) = [] := by
        rw [List.filter_eq_nil_iff]
        intro a ha hak
        exact h.1 (hk ▸ (of_decide_eq_true hak) ▸ List.mem_map_of_mem (·.title_normalized) ha)
      simp [List.filter_cons, hk, hrest]
    · simp only [List.filter_cons, decide_eq_true_eq, hk, if_false]
      exact ih h.2

/-- A join group is never empty. -/
theorem merge_group_length_ge (b : BaseRow) (radar : List RadarRow) :
    1 ≤ (merge_group b radar).length := by
  unfold merge_group
  cases hf : radar.filter (fun r => r.title_normalized = b.title_normalized) with
  | nil => simp
  | cons m ms => simp

/-- With unique radar keys every join group is a singleton. -/
theorem merge_group_length_of_nodup (b : BaseRow) (radar : List RadarRow)
    (h : (radar.map (·.title_normalized)).Nodup) :
    (merge_group b radar).length = 1 := by
  unfold merge_group
  cases hf : radar.filter (fun r => r.title_normalized = b.title_normalized) with
  | nil => simp
  | cons m ms =>
    have hle := radar_filter_len_le_one radar h b.title_normalized
    rw [hf] at hle
    simp only [List.length_cons] at hle
    have hms : ms.length = 0 := by omega
    simp [List.length_map, hms]

/-- Every base row contributes at least one joined row. -/
theorem merge_join_length_ge (base : List BaseRow) (radar : List RadarRow) :
    base.length ≤ (merge_join base radar).length := by
  induction base with
  | nil => simp [merge_join]
  | cons b bs ih =>
    rw [merge_join, List.flatMap_cons, List.length_append]
    rw [merge_join] at ih
    have h1 := merge_group_length_ge b radar
    simpa [Nat.add_comm] using Nat.add_le_add h1 ih

/-- With unique radar keys the join length is exactly the base length. -/
theorem merge_join_length_of_nodup (base : List BaseRow) (radar : List RadarRow)
    (h : (radar.map (·.title_normalized)).Nodup) :
    (merge_join base radar).length = base.length := by
  induction base with
  | nil => simp [merge_join]
  | cons b bs ih =>
    rw [merge_join, List.flatMap_cons, List.length_append]
    rw [merge_join] at ih
    rw [merge_group_length_of_nodup b radar h, ih, Nat.add_comm]
    rfl

/-- C1: `merge_datasets` either returns exactly as many rows as the base
input or fails with the cardinality `ValueError` — it never returns a
frame of a different size — and on deduplicated (unique-key) radar data it
always succeeds with exactly `B` rows. -/
theorem merge_cardinality :
    (∀ (base : List BaseRow) (radar : List RadarRow) (out : List MergedRow),
      merge_datasets base radar = .ok out → out.length = base.length) ∧
    (∀ (base : List BaseRow) (radar : List RadarRow),
      (radar.map (·.title_normalized)).Nodup →
        ∃ out, merge_datasets base radar = .ok out ∧ out.length = base.length) := by
  constructor
  · intro base radar out h
    unfold merge_datasets at h
    by_cases hlen : (merge_join base radar).length = base.length
    · rw [if_pos hlen] at h
      cases h
      simpa using hlen
    · rw [if_neg hlen] at h
      cases h
  · intro base radar h
    have hlen := merge_join_length_of_nodup base radar h
    refine ⟨(merge_join base radar).map to_merged_row, ?_, by simpa using hlen⟩
    unfold merge_datasets
    rw [if_pos hlen]

/-- Witness for `merge_cardinality`: a two-row base against a deduplicated
single-row radar set merges to exactly two rows. -/
theorem merge_cardinality_witness :
    ∃ out, merge_datasets
        [{ ID := 1, Title := "A", Description := "", driving_force := "Signals", Tags := "",
           Source := "", level_of_impact := none, time_to_market := none, title_normalized := "a" },
         { ID := 2, Title := "B", Description := "", driving_force := "Trends", Tags := "",
           Source := "", level_of_impact := none, time_to_market := none, title_normalized := "b" }]
        [{ title_normalized := "a", dimension := some "tech", magnitude := some 5, distance := none, color_hex := none }]
      = .ok out ∧ out.length = 2 :=
  merge_cardinality.2 _ _ (by decide)

/-- When the join's length check passes, each base row pairs with exactly
one joined row: itself, annotated by nothing when its key is unmatched. -/
theorem merge_join_forall2 (base : List BaseRow) (radar : List RadarRow)
    (hlen : (merge_join base radar).length = base.length) :
    List.Forall₂ (fun (b : BaseRow) (p : BaseRow × Option RadarRow) =>
        p.1 = b ∧
        (radar.filter (fun r => r.title_normalized = b.title_normalized) = [] →
          p.2 = none))
      base (merge_join base radar) := by
  induction base with
  | nil =>
    rw [show merge_join [] radar = [] from rfl]
    exact List.Forall₂.nil
  | cons b bs ih =>
    rw [merge_join, List.flatMap_cons] at hlen ⊢
    have hg1 := merge_group_length_ge b radar
    have hge := merge_join_length_ge bs radar
    rw [merge_join] at hge
    rw [List.length_append, List.length_cons] at hlen
    have hglen : (merge_group b radar).length = 1 := by omega
    have hrlen : (bs.flatMap fun x => merge_group x radar).length = bs.length := by omega
    obtain ⟨p, hp⟩ := List.length_eq_one.mp hglen
    rw [hp]
    have ihr := ih (by rw [merge_join]; exact hrlen)
    rw [merge_join] at ihr
    refine List.Forall₂.cons ?_ ihr
    unfold merge_group at hp
    cases hf : radar.filter (fun r => r.title_normalized = b.title_normalized) with
    | nil =>
      rw [hf] at hp
      have hpe : p = (b, none) := by
        have := hp.symm
        simpa using this
      exact ⟨by rw [hpe], fun _ => by rw [hpe]⟩
    | cons m ms =>
      rw [hf] at hp
      simp only [List.map_cons, List.cons.injEq] at hp
      refine ⟨?_, fun hemp => absurd hemp (by simp)⟩
      rw [← hp.1]

/-- Mapping a well-shaped join through `to_merged_row` preserves the base
columns pointwise and leaves the radar columns null exactly on unmatched
rows. -/
theorem forall2_merge_output {base : List BaseRow} {radar : List RadarRow}
    {joined : List (BaseRow × Option RadarRow)}
    (hF : List.Forall₂ (fun (b : BaseRow) (p : BaseRow × Option RadarRow) =>
        p.1 = b ∧
        (radar.filter (fun r => r.title_normalized = b.title_normalized) = [] →
          p.2 = none))
      base joined) :
    (joined.map to_merged_row).map merged_base_fields = base.map base_fields ∧
    List.Forall₂ (fun (b : BaseRow) (m : MergedRow) =>
        radar.filter (fun r => r.title_normalized = b.title_normalized) = [] →
          m.magnitude = none ∧ m.distance = none ∧
          m.color_hex = none ∧ m.dimension = none)
      base (joined.map to_merged_row) := by
  induction hF with
  | nil => exact ⟨rfl, List.Forall₂.nil⟩
  | @cons a p l1 l2 hpred hrest ih =>
    refine ⟨?_, ?_⟩
    · simp only [List.map_cons]
      rw [ih.1, ← hpred.1]
      rfl
    · refine List.Forall₂.cons ?_ ih.2
      intro hemp
      have h2 := hpred.2 hemp
      simp [to_merged_row, h2]

/-- C10: whenever the merge succeeds, the output preserves the base rows'
order and every base column value unchanged, and the radar enrichment
columns of a base row whose key matches no radar row are all null.  (The
internal `title_normalized` key is dropped before output — `MergedRow`
carries no such field.) -/
theorem merge_frame_effect :
    ∀ (base : List BaseRow) (radar : List RadarRow) (out : List MergedRow),
      merge_datasets base radar = .ok out →
        out.map merged_base_fields = base.map base_fields ∧
        List.Forall₂ (fun (b : BaseRow) (m : MergedRow) =>
            radar.filter (fun r => r.title_normalized = b.title_normalized) = [] →
              m.magnitude = none ∧ m.distance = none ∧
              m.color_hex = none ∧ m.dimension = none)
          base out := by
  intro base radar out h
  unfold merge_datasets at h
  by_cases hlen : (merge_join base radar).length = base.length
  · rw [if_pos hlen] at h
    cases h
    exact forall2_merge_output (merge_join_forall2 base radar hlen)
  · rw [if_neg hlen] at h
    cases h

/-- Witness for `merge_frame_effect`: one matched and one unmatched base
row; the unmatched output row keeps all radar columns null and both keep
their base columns. -/
theorem merge_frame_effect_witness :
    ([{ ID := 1, Title := "A", Description := "dA", driving_force := "Signals", Tags := "t1",
        Source := "s1", level_of_impact := some 3, time_to_market := none, title_normalized := "a" },
      { ID := 2, Title := "B", Description := "dB", driving_force := "Trends", Tags := "t2",
        Source := "s2", level_of_impact := none, time_to_market := some "Long", title_normalized := "b" }].map
      base_fields : List (Nat × String × String × String × String × String × Option Rat × Option String))
      = ([{ ID := 1, Title := "A", Description := "dA", driving_force := "Signals", Tags := "t1",
            Source := "s1", level_of_impact := some 3, time_to_market := none,
            magnitude := some 5, distance := some 2, color_hex := some "#fff", dimension := some "tech" },
          { ID := 2, Title := "B", Description := "dB", driving_force := "Trends", Tags := "t2",
            Source := "s2", level_of_impact := none, time_to_market := some "Long",
            magnitude := none, distance := none, color_hex := none, dimension := none }].map
          merged_base_fields) :=
  ((merge_frame_effect
    [{ ID := 1, Title := "A", Description := "dA", driving_force := "Signals", Tags := "t1",
       Source := "s1", level_of_impact := some 3, time_to_market := none, title_normalized := "a" },
     { ID := 2, Title := "B", Description := "dB", driving_force := "Trends", Tags := "t2",
       Source := "s2", level_of_impact := none, time_to_market := some "Long", title_normalized := "b" }]
    [{ title_normalized := "a", dimension := some "tech", magnitude := some 5, distance := some 2, color_hex := some "#fff" }]
    _ rfl).1).symm

/-- `ON CONFLICT (id) DO NOTHING`: inserting a record whose id already
exists leaves the store — including the existing row — unchanged. -/
theorem insert_row_of_mem (st : List StoreRow) (r : StoreRow)
    (h : r.id ∈ store_ids st) : insert_row st r = st := by
  have hany : st.any (fun x => x.id = r.id) = true := by
    simp only [List.any_eq_true, decide_eq_true_eq]
    obtain ⟨x, hx, hxid⟩ := List.mem_map.mp h
    exact ⟨x, hx, hxid⟩
  rw [insert_row, if_pos hany]

/-- Ids after an insert are among the inserted id and the previous ids. -/
theorem store_ids_insert_subset (st : List StoreRow) (r : StoreRow) :
    store_ids (insert_row st r) ⊆ r.id :: store_ids st := by
  unfold insert_row
  by_cases hany : st.any (fun x => x.id = r.id) = true
  · rw [if_pos hany]
    exact List.subset_cons_self _ _
  · rw [if_neg hany]
    intro x hx
    simp only [store_ids, List.map_append, List.map_cons, List.map_nil,
      List.mem_append, List.mem_singleton] at hx
    rcases hx with hx | hx
    · exact List.mem_cons_of_mem _ hx
    · exact hx ▸ List.mem_cons_self _ _

/-- Previous ids survive an insert. -/
theorem subset_store_ids_insert (st : List StoreRow) (r : StoreRow) :
    store_ids st ⊆ store_ids (insert_row st r) := by
  unfold insert_row
  by_cases hany : st.any (fun x => x.id = r.id) = true
  · rw [if_pos hany]
    exact fun _ hx => hx
  · rw [if_neg hany]
    simp only [store_ids, List.map_append]
    exact List.subset_append_left _ _

/-- The inserted id is present afterwards. -/
theorem mem_store_ids_insert_self (st : List StoreRow) (r : StoreRow) :
    r.id ∈ store_ids (insert_row st r) := by
  unfold insert_row
  by_cases hany : st.any (fun x => x.id = r.id) = true
  · rw [if_pos hany]
    simp only [List.any_eq_true, decide_eq_true_eq] at hany
    obtain ⟨x, hx, hxid⟩ := hany
    exact hxid ▸ List.mem_map_of_mem (·.id) hx
  · rw [if_neg hany]
    simp [store_ids]

/-- Inserting never introduces a duplicate id. -/
theorem insert_row_nodup (st : List StoreRow) (r : StoreRow)
    (h : (store_ids st).Nodup) : (store_ids (insert_row st r)).Nodup := by
  unfold insert_row
  by_cases hany : st.any (fun x => x.id = r.id) = true
  · rwa [if_pos hany]
  · rw [if_neg hany]
    have hnotmem : r.id ∉ store_ids st := by
      intro hmem
      obtain ⟨x, hx, hxid⟩ := List.mem_map.mp hmem
      exact hany (by simp only [List.any_eq_true, decide_eq_true_eq]; exact ⟨x, hx, hxid⟩)
    simp only [store_ids, List.map_append, List.map_cons, List.map_nil]
    refine List.Nodup.append h (List.nodup_singleton _) ?_
    intro a ha hb
    simp only [List.mem_singleton] at hb
    exact hnotmem (hb ▸ ha)

/-- Batch insertion preserves id uniqueness. -/
theorem insert_batch_nodup (b : List StoreRow) :
    ∀ st : List StoreRow, (store_ids st).Nodup →
      (store_ids (insert_batch st b)).Nodup := by
  induction b with
  | nil => exact fun st h => h
  | cons y ys ih =>
    intro st h
    exact ih (insert_row st y) (insert_row_nodup st y h)

/-- Batch insertion keeps every previously present id. -/
theorem insert_batch_subset_ids (b : List StoreRow) :
    ∀ st : List StoreRow, store_ids st ⊆ store_ids (insert_batch st b) := by
  induction b with
  | nil => exact fun st => fun _ hx => hx
  | cons y ys ih =>
    intro st
    exact (subset_store_ids_insert st y).trans (ih (insert_row st y))

/-- Every id of a batch is present after the batch is inserted. -/
theorem mem_ids_insert_batch (b : List StoreRow) :
    ∀ (st : List StoreRow) (x : StoreRow), x ∈ b →
      x.id ∈ store_ids (insert_batch st b) := by
  induction b with
  | nil => intro st x hx; cases hx
  | cons y ys ih =>
    intro st x hx
    rcases List.mem_cons.mp hx with rfl | hx
    · exact insert_batch_subset_ids ys (insert_row st x)
        (mem_store_ids_insert_self st x)
    · exact ih (insert_row st y) x hx

/-- Batch insertion introduces no id beyond the batch's own. -/
theorem insert_batch_ids_subset (b : List StoreRow) :
    ∀ st : List StoreRow,
      store_ids (insert_batch st b) ⊆ store_ids st ++ b.map (·.id) := by
  induction b with
  | nil => intro st x hx; simpa using hx
  | cons y ys ih =>
    intro st x hx
    have h1 := ih (insert_row st y) hx
    simp only [List.mem_append] at h1
    rcases h1 with h1 | h1
    · have := store_ids_insert_subset st y h1
      simp only [List.mem_cons] at this
      rcases this with rfl | hin
      · simp
      · simp [hin]
    · simp [h1]

/-- The rows selected for import all derive from source rows. -/
theorem to_import_ids_subset (src : List SourceRec) (st : List StoreRow) :
    (to_import src st).map (·.id) ⊆ src.map (fun r => force_id r.idNum) := by
  intro x hx
  simp only [to_import, List.map_map, List.mem_map, Function.comp_def,
    mk_store_row] at hx
  obtain ⟨r, hr, rfl⟩ := hx
  exact List.mem_map_of_mem _ (List.mem_of_mem_filter hr)

/-- One invocation preserves the loader invariant: unique ids, all derived
from source rows. -/
theorem run_invocation_inv (src : List SourceRec) (st : List StoreRow) (k : Nat)
    (h1 : (store_ids st).Nodup)
    (h2 : store_ids st ⊆ src.map (fun r => force_id r.idNum)) :
    (store_ids (run_invocation src st k)).Nodup ∧
    store_ids (run_invocation src st k) ⊆ src.map (fun r => force_id r.idNum) := by
  refine ⟨insert_batch_nodup _ st h1, ?_⟩
  intro x hx
  have := insert_batch_ids_subset _ st hx
  simp only [List.mem_append] at this
  rcases this with h | h
  · exact h2 h
  · refine to_import_ids_subset src st ?_
    obtain ⟨y, hy, rfl⟩ := List.mem_map.mp h
    exact List.mem_map_of_mem _ (List.take_subset _ _ hy)

/-- Any sequence of (possibly interrupted) invocations from the empty
store preserves the loader invariant. -/
theorem run_invocations_inv (src : List SourceRec) (ks : List Nat) :
    (store_ids (run_invocations src ks)).Nodup ∧
    store_ids (run_invocations src ks) ⊆ src.map (fun r => force_id r.idNum) := by
  suffices h : ∀ (ks : List Nat) (st : List StoreRow),
      (store_ids st).Nodup →
      store_ids st ⊆ src.map (fun r => force_id r.idNum) →
      (store_ids (ks.foldl (run_invocation src) st)).Nodup ∧
      store_ids (ks.foldl (run_invocation src) st) ⊆
        src.map (fun r => force_id r.idNum) by
    exact h ks [] (by simp [store_ids]) (by simp [store_ids])
  intro ks
  induction ks with
  | nil => exact fun st h1 h2 => ⟨h1, h2⟩
  | cons k ks ih =>
    intro st h1 h2
    have := run_invocation_inv src st k h1 h2
    exact ih (run_invocation src st k) this.1 this.2

/-- After a completed invocation every source row's id is present. -/
theorem mem_ids_of_complete (src : List SourceRec) (st : List StoreRow) (k : Nat)
    (hcomp : (to_import src st).length ≤ BATCH_SIZE * k)
    (r : SourceRec) (hr : r ∈ src) :
    force_id r.idNum ∈ store_ids (run_invocation src st k) := by
  rw [run_invocation, List.take_of_length_le hcomp]
  by_cases hmem : force_id r.idNum ∈ store_ids st
  · exact insert_batch_subset_ids _ st hmem
  · have hfil : r ∈ src.filter (fun r => !((store_ids st).contains (force_id r.idNum))) := by
      rw [List.mem_filter]
      refine ⟨hr, ?_⟩
      simp [List.contains, List.elem_eq_mem, hmem]
    have hx : mk_store_row r ∈ to_import src st :=
      List.mem_map_of_mem mk_store_row hfil
    simpa [mk_store_row] using mem_ids_insert_batch _ st _ hx

/-- C2: inserting a record whose id already exists is a no-op that never
overwrites the stored row, and therefore any sequence of loader
invocations over a dataset of `N` records with distinct derived ids — each
invocation interrupted after any number of committed batches — followed by
one invocation that runs to completion leaves the store with exactly `N`
committed records and no duplicate ids. -/
theorem loader_idempotent_resume :
    (∀ (st : List StoreRow) (r : StoreRow),
      r.id ∈ store_ids st → insert_row st r = st) ∧
    (∀ src : List SourceRec,
      (src.map (fun r => force_id r.idNum)).Nodup →
      ∀ (ks : List Nat) (k : Nat),
        (to_import src (run_invocations src ks)).length ≤ BATCH_SIZE * k →
          (run_invocation src (run_invocations src ks) k).length = src.length ∧
          (store_ids (run_invocation src (run_invocations src ks) k)).Nodup) := by
  refine ⟨insert_row_of_mem, ?_⟩
  intro src hnodup ks k hcomp
  have hmid := run_invocations_inv src ks
  have hfin := run_invocation_inv src (run_invocations src ks) k hmid.1 hmid.2
  have hsub1 : src.map (fun r => force_id r.idNum) ⊆
      store_ids (run_invocation src (run_invocations src ks) k) := by
    intro x hx
    obtain ⟨r, hr, rfl⟩ := List.mem_map.mp hx
    exact mem_ids_of_complete src (run_invocations src ks) k hcomp r hr
  have hlen1 := (List.subperm_of_subset hnodup hsub1).length_le
  have hlen2 := (List.subperm_of_subset hfin.1 hfin.2).length_le
  refine ⟨?_, hfin.1⟩
  have e1 : (store_ids (run_invocation src (run_invocations src ks) k)).length =
      (run_invocation src (run_invocations src ks) k).length := by
    simp [store_ids]
  have e2 : (src.map (fun r => force_id r.idNum)).length = src.length := by simp
  omega

/-- Witness for `loader_idempotent_resume`: a two-record dataset, one full
prior invocation, and a completing rerun end with exactly two records. -/
theorem loader_idempotent_resume_witness :
    insert_row [{ id := "force-1", payload := "a" }] { id := "force-1", payload := "b" } =
      [{ id := "force-1", payload := "a" }] ∧
    (run_invocation [{ idNum := 1, payload := "a" }, { idNum := 2, payload := "b" }]
        (run_invocations [{ idNum := 1, payload := "a" }, { idNum := 2, payload := "b" }] [1]) 1).length = 2 ∧
    (store_ids (run_invocation [{ idNum := 1, payload := "a" }, { idNum := 2, payload := "b" }]
        (run_invocations [{ idNum := 1, payload := "a" }, { idNum := 2, payload := "b" }] [1]) 1)).Nodup :=
  ⟨loader_idempotent_resume.1 _ _ (by decide),
    (loader_idempotent_resume.2 _ (by decide) [1] 1 (by decide)).1,
    (loader_idempotent_resume.2 _ (by decide) [1] 1 (by decide)).2⟩
